import Mathlib

/-!
Verification of the distbuild-worker compile pipeline (src/main.rs).

The single handler `compile_handler` is embedded as a pure function over an
explicit environment `Env` that records the outcome of every external
interaction the Rust code performs (body collection, temp-dir allocation,
archive unpacking, the cargo subprocess, directory listing and file reads).
Byte sequences are `List Nat`; HTTP responses are a status, a header list and
a body.  Each exit path of the handler additionally records trace facts that
the Rust code guarantees at that point: whether the temporary directory was
created and (by Rust's drop semantics for the owning `TempDir` local binding,
which runs at every `return`) removed, whether the cargo subprocess was
invoked, and which artifact, if any, was produced.
-/

namespace DistbuildWorker

/-- UTF-8 encoding of a single character, as in Rust's `String` byte
representation (used by `Body::from(message.to_string())`). -/
def encodeChar (c : Char) : List Nat :=
  let n := c.toNat
  if n < 0x80 then [n]
  else if n < 0x800 then
    [0xC0 + n / 64, 0x80 + n % 64]
  else if n < 0x10000 then
    [0xE0 + n / 4096, 0x80 + (n / 64) % 64, 0x80 + n % 64]
  else
    [0xF0 + n / 262144, 0x80 + (n / 4096) % 64, 0x80 + (n / 64) % 64, 0x80 + n % 64]

/-- The UTF-8 bytes of a string. -/
def strBytes (s : String) : List Nat :=
  s.data.flatMap encodeChar

/-- Is `b` a UTF-8 continuation byte (0x80..=0xBF)? -/
def isCont (b : Nat) : Bool :=
  0x80 ≤ b && b ≤ 0xBF

/-- Allowed range of the second byte of a three-byte UTF-8 sequence whose
first byte is `b` (0xE0 restricts to 0xA0.., 0xED to ..0x9F, excluding
overlong encodings and surrogates), as in Rust's UTF-8 validation. -/
def utf8Second3 (b c1 : Nat) : Bool :=
  if b = 0xE0 then 0xA0 ≤ c1 && c1 ≤ 0xBF
  else if b = 0xED then 0x80 ≤ c1 && c1 ≤ 0x9F
  else isCont c1

/-- Allowed range of the second byte of a four-byte UTF-8 sequence whose
first byte is `b` (0xF0 restricts to 0x90.., 0xF4 to ..0x8F). -/
def utf8Second4 (b c1 : Nat) : Bool :=
  if b = 0xF0 then 0x90 ≤ c1 && c1 ≤ 0xBF
  else if b = 0xF4 then 0x80 ≤ c1 && c1 ≤ 0x8F
  else isCont c1

/-- The replacement character U+FFFD emitted for invalid sequences. -/
def replChar : Char := Char.ofNat 0xFFFD

/-- Fuel-driven worker for `utf8Lossy`; the fuel is an upper bound on the
number of bytes left, and each step consumes at least one byte.  Invalid
sequences are replaced by U+FFFD following Rust's maximal-subpart rule:
a valid prefix of a multi-byte sequence that is cut short mid-input, or
followed by an out-of-range byte, yields one replacement character and
decoding resumes at the offending byte. -/
def utf8LossyGo : Nat → List Nat → List Char
  | 0, _ => []
  | _ + 1, [] => []
  | fuel + 1, b :: rest =>
    if b < 0x80 then
      Char.ofNat b :: utf8LossyGo fuel rest
    else if 0xC2 ≤ b && b ≤ 0xDF then
      match rest with
      | [] => [replChar]
      | c1 :: r1 =>
        if isCont c1 then
          Char.ofNat ((b - 0xC0) * 64 + (c1 - 0x80)) :: utf8LossyGo fuel r1
        else replChar :: utf8LossyGo fuel rest
    else if 0xE0 ≤ b && b ≤ 0xEF then
      match rest with
      | [] => [replChar]
      | c1 :: r1 =>
        if utf8Second3 b c1 then
          match r1 with
          | [] => [replChar]
          | c2 :: r2 =>
            if isCont c2 then
              Char.ofNat ((b - 0xE0) * 4096 + (c1 - 0x80) * 64 + (c2 - 0x80)) ::
                utf8LossyGo fuel r2
            else replChar :: utf8LossyGo fuel r1
        else replChar :: utf8LossyGo fuel rest
    else if 0xF0 ≤ b && b ≤ 0xF4 then
      match rest with
      | [] => [replChar]
      | c1 :: r1 =>
        if utf8Second4 b c1 then
          match r1 with
          | [] => [replChar]
          | c2 :: r2 =>
            if isCont c2 then
              match r2 with
              | [] => [replChar]
              | c3 :: r3 =>
                if isCont c3 then
                  Char.ofNat ((b - 0xF0) * 262144 + (c1 - 0x80) * 4096 +
                      (c2 - 0x80) * 64 + (c3 - 0x80)) :: utf8LossyGo fuel r3
                else replChar :: utf8LossyGo fuel r2
            else replChar :: utf8LossyGo fuel r1
        else replChar :: utf8LossyGo fuel rest
    else
      replChar :: utf8LossyGo fuel rest

/-- Rust's `String::from_utf8_lossy`: decode a byte sequence as UTF-8,
replacing invalid sequences with U+FFFD. -/
def utf8Lossy (l : List Nat) : String :=
  String.mk (utf8LossyGo l.length l)

/-- Is `pat` a prefix of `s` (character lists)? -/
def listIsPrefix : List Char → List Char → Bool
  | [], _ => true
  | _ :: _, [] => false
  | a :: as, b :: bs => a = b && listIsPrefix as bs

/-- Does `pat` occur as a contiguous sublist of `s`? -/
def listContainsSub (pat : List Char) : List Char → Bool
  | [] => listIsPrefix pat []
  | c :: rest => listIsPrefix pat (c :: rest) || listContainsSub pat rest

/-- Rust's `str::contains` with a string pattern: substring containment. -/
def strContains (s pat : String) : Bool :=
  listContainsSub pat.data s.data

/-- The characters after the last dot of the list, if it has a dot. -/
def extAfterLastDot : List Char → Option (List Char)
  | [] => none
  | c :: rest =>
    if c = '.' then
      match extAfterLastDot rest with
      | some e => some e
      | none => some rest
    else extAfterLastDot rest

/-- Rust's `Path::extension` applied to a bare file name: the portion after
the last dot, provided it is not the special name `..` and the last dot is
not the leading character (so `.gitignore` has no extension). -/
def pathExtension (name : String) : Option String :=
  if name = ".." then none
  else
    match name.data with
    | [] => none
    | _ :: rest => (extAfterLastDot rest).map (fun e => String.mk e)

/-- An HTTP response: status code, headers in order, body bytes. -/
structure Response where
  status : Nat
  headers : List (String × String)
  body : List Nat
deriving Repr, DecidableEq

/-- `error_response` from src/main.rs: given status and plain-text message,
a response with no headers whose body is the message's UTF-8 bytes. -/
def error_response (status : Nat) (message : String) : Response :=
  { status := status, headers := [], body := strBytes message }

/-- First header value with the given name, if any. -/
def getHeader (r : Response) (k : String) : Option String :=
  (r.headers.find? (fun p => p.1 == k)).map (fun p => p.2)

/-- Captured output of the cargo subprocess: exit-status success flag and
the raw standard-error bytes. -/
structure CmdOutput where
  success : Bool
  stderr : List Nat
deriving Repr, DecidableEq

/-- The kind of artifact produced, from the spec's data model. -/
inductive ArtifactKind
  | LibraryArchive
  | Executable
deriving Repr, DecidableEq

/-- An artifact returned by a success branch of the handler: which return
site fired, the file name reported in the header, and the bytes served. -/
structure Artifact where
  kind : ArtifactKind
  fileName : String
  bytes : List Nat
deriving Repr, DecidableEq

/-- Outcomes of the external interactions of one request, fixed up front:
whether the body collects, whether `tempdir()` succeeds, whether
`Archive::unpack` succeeds on given bytes, the cargo subprocess outcome
(`none` models `Command::output` returning `Err`, i.e. launch failure),
the `read_dir(target/debug/deps)` listing (`none` models `Err`; entries
are the file names yielded by the iterator, with errored entries already
skipped as `entries.flatten()` does), `fs::read` on a deps entry by file
name, existence of `target/debug/<crate_name>`, and `fs::read` of it. -/
structure Env where
  collectBody : Option (List Nat)
  tempdirOk : Bool
  unpackOk : List Nat → Bool
  cargoOutput : Option CmdOutput
  depsEntries : Option (List String)
  readDeps : String → Option (List Nat)
  exeExists : Bool
  readExe : Option (List Nat)

/-- Result of one run of the handler: the HTTP response plus trace facts.
`tempdirCreated`/`tempdirRemoved` record whether `tempdir()` succeeded and
whether the owning `TempDir` binding was dropped (removing the directory)
by the time the handler returned; `cargoInvoked` records whether
`Command::output` was reached; `artifact` records which success return
fired, if any. -/
structure HandlerResult where
  response : Response
  tempdirCreated : Bool
  tempdirRemoved : Bool
  cargoInvoked : Bool
  artifact : Option Artifact
deriving Repr, DecidableEq

/-- The rlib loop of src/main.rs lines 78-95: scan the deps entries in
order; an entry matches when its extension is `rlib` and its file name
contains `lib<crate_name>`; on a match, return its name and bytes if
`fs::read` succeeds, otherwise keep scanning (the `if let Ok` has no
else branch, so a failed read falls through to the next entry). -/
def findRlib (crateName : String) (readF : String → Option (List Nat)) :
    List String → Option (String × List Nat)
  | [] => none
  | name :: rest =>
    if pathExtension name == some "rlib" && strContains name ("lib" ++ crateName) then
      match readF name with
      | some bin => some (name, bin)
      | none => findRlib crateName readF rest
    else findRlib crateName readF rest

/-- The whole rlib phase: if `read_dir` on the deps directory fails the
phase yields nothing, otherwise the loop result. -/
def rlibSearch (crateName : String) (env : Env) : Option (String × List Nat) :=
  match env.depsEntries with
  | none => none
  | some entries => findRlib crateName env.readDeps entries

/-- The common terminal of the success arm when no artifact could be
served: 500 with body "No output file found" (src/main.rs line 111). -/
def noOutputResult : HandlerResult :=
  { response := error_response 500 "No output file found",
    tempdirCreated := true, tempdirRemoved := true,
    cargoInvoked := true, artifact := none }

/-- `compile_handler` from src/main.rs lines 38-125, with every external
interaction drawn from `env` and the `crate_name` query parameter given
as `crateName`.  Control flow mirrors the source: collect body (400 on
failure), create temp dir (500 on failure), unpack (400 on failure), run
cargo; on launch failure 500 with a fixed message; on non-zero exit 500
with the lossily-decoded stderr; on success, rlib search first, then the
executable path, else 500 "No output file found". -/
def compile_handler (crateName : String) (env : Env) : HandlerResult :=
  match env.collectBody with
  | none =>
    { response := error_response 400 "Failed to collect body",
      tempdirCreated := false, tempdirRemoved := false,
      cargoInvoked := false, artifact := none }
  | some bytes =>
    match env.tempdirOk with
    | false =>
      { response := error_response 500 "Temp dir error",
        tempdirCreated := false, tempdirRemoved := false,
        cargoInvoked := false, artifact := none }
    | true =>
      match env.unpackOk bytes with
      | false =>
        { response := error_response 400 "Unpack failed",
          tempdirCreated := true, tempdirRemoved := true,
          cargoInvoked := false, artifact := none }
      | true =>
        match env.cargoOutput with
        | none =>
          { response := error_response 500 "Cargo execution failed",
            tempdirCreated := true, tempdirRemoved := true,
            cargoInvoked := true, artifact := none }
        | some o =>
          match o.success with
          | true =>
            match rlibSearch crateName env with
            | some (fname, bin) =>
              { response :=
                  { status := 200,
                    headers := [("Content-Type", "application/octet-stream"),
                                ("X-Rlib-File", fname)],
                    body := bin },
                tempdirCreated := true, tempdirRemoved := true,
                cargoInvoked := true,
                artifact := some { kind := ArtifactKind.LibraryArchive,
                                   fileName := fname, bytes := bin } }
            | none =>
              match env.exeExists with
              | true =>
                match env.readExe with
                | some bin =>
                  { response :=
                      { status := 200,
                        headers := [("Content-Type", "application/octet-stream"),
                                    ("X-Binary-File", crateName)],
                        body := bin },
                    tempdirCreated := true, tempdirRemoved := true,
                    cargoInvoked := true,
                    artifact := some { kind := ArtifactKind.Executable,
                                       fileName := crateName, bytes := bin } }
                | none => noOutputResult
              | false => noOutputResult
          | false =>
            { response := error_response 500 (utf8Lossy o.stderr),
              tempdirCreated := true, tempdirRemoved := true,
              cargoInvoked := true, artifact := none }

/-! ### Concrete environments used to instantiate the theorems -/

/-- A request that reaches a successful build with both a matching rlib in
the deps listing (readable) and an existing readable executable. -/
def envLib : Env :=
  { collectBody := some [1], tempdirOk := true, unpackOk := fun _ => true,
    cargoOutput := some { success := true, stderr := [] },
    depsEntries := some ["libfoo-1a2b.rlib"], readDeps := fun _ => some [7, 8],
    exeExists := true, readExe := some [9] }

/-- A request whose cargo subprocess runs and exits non-zero with stderr
bytes "err". -/
def envFail : Env :=
  { collectBody := some [1], tempdirOk := true, unpackOk := fun _ => true,
    cargoOutput := some { success := false, stderr := [101, 114, 114] },
    depsEntries := none, readDeps := fun _ => none,
    exeExists := false, readExe := none }

/-- A successful build with no matching rlib entry and no executable. -/
def envNone : Env :=
  { collectBody := some [1], tempdirOk := true, unpackOk := fun _ => true,
    cargoOutput := some { success := true, stderr := [] },
    depsEntries := some ["notalib.txt"], readDeps := fun _ => none,
    exeExists := false, readExe := none }

/-- A request whose archive fails to unpack. -/
def envBad : Env :=
  { collectBody := some [1], tempdirOk := true, unpackOk := fun _ => false,
    cargoOutput := some { success := true, stderr := [] },
    depsEntries := none, readDeps := fun _ => none,
    exeExists := false, readExe := none }

/-- A request where the cargo subprocess cannot be started at all. -/
def envLaunch : Env :=
  { collectBody := some [1], tempdirOk := true, unpackOk := fun _ => true,
    cargoOutput := none,
    depsEntries := none, readDeps := fun _ => none,
    exeExists := false, readExe := none }

/-- A successful build whose deps listing holds a matching rlib whose read
fails, with no executable present. -/
def envC7read : Env :=
  { collectBody := some [0], tempdirOk := true, unpackOk := fun _ => true,
    cargoOutput := some { success := true, stderr := [] },
    depsEntries := some ["libfoo-1.rlib"], readDeps := fun _ => none,
    exeExists := false, readExe := none }

/-- The same request with the matching entry absent from the listing. -/
def envC7notfound : Env :=
  { envC7read with depsEntries := some [] }

/-! ### Theorems for the claims -/

/-- C9: a cargo invocation that reports failure (non-zero exit status) never
yields an artifact: on every such run the handler's artifact trace is
`none`, so neither success-response branch fired. -/
theorem cargo_failure_no_artifact (crateName : String) (env : Env) (o : CmdOutput) :
    env.cargoOutput = some o → o.success = false →
    (compile_handler crateName env).artifact = none := by
  intro ho hs
  unfold compile_handler
  repeat' split
  all_goals simp_all [noOutputResult]

/-- C9 witness at a concrete failing run. -/
theorem cargo_failure_no_artifact_witness :
    envFail.cargoOutput = some { success := false, stderr := [101, 114, 114] } ∧
    (compile_handler "foo" envFail).artifact = none := by
  exact ⟨rfl, cargo_failure_no_artifact "foo" envFail _ rfl rfl⟩

/-- C8: on every exit path of the handler, if the temporary workspace
directory was created it was also removed by the time the handler
returned (the `TempDir` binding's drop runs at every return). -/
theorem tempdir_always_removed (crateName : String) (env : Env) :
    (compile_handler crateName env).tempdirCreated = true →
    (compile_handler crateName env).tempdirRemoved = true := by
  unfold compile_handler
  repeat' split
  all_goals intro h
  all_goals first | rfl | exact h

/-- C8 witness at a concrete run that creates the workspace. -/
theorem tempdir_always_removed_witness :
    (compile_handler "foo" envLib).tempdirCreated = true ∧
    (compile_handler "foo" envLib).tempdirRemoved = true := by
  exact ⟨rfl, tempdir_always_removed "foo" envLib rfl⟩

/-- C10: an empty `crate_name` is not rejected: there is no non-emptiness
validation, so a request with `crate_name = ""` that collects its body,
gets a workspace and unpacks proceeds to the toolchain invocation, and
indeed whether cargo is invoked never depends on the crate name. -/
theorem empty_crate_name_not_rejected (env : Env) (bytes : List Nat) :
    env.collectBody = some bytes → env.tempdirOk = true → env.unpackOk bytes = true →
    ((compile_handler "" env).cargoInvoked = true ∧
     ∀ crateName, (compile_handler crateName env).cargoInvoked = true) := by
  intro hcb ht hu
  have h : ∀ c, (compile_handler c env).cargoInvoked = true := by
    intro c
    unfold compile_handler
    repeat' split
    all_goals simp_all [noOutputResult]
  exact ⟨h "", h⟩

/-- C10 witness at a concrete run with the empty crate name. -/
theorem empty_crate_name_not_rejected_witness :
    envLib.collectBody = some [1] ∧ envLib.tempdirOk = true ∧
    envLib.unpackOk [1] = true ∧
    (compile_handler "" envLib).cargoInvoked = true := by
  exact ⟨rfl, rfl, rfl, (empty_crate_name_not_rejected envLib [1] rfl rfl rfl).1⟩

/-- C1: every success response (a run whose artifact trace is set) has
status 200, Content-Type application/octet-stream, body equal to the
artifact's bytes, and exactly one of the two identifying headers:
X-Rlib-File carrying the found library file's name, or X-Binary-File
carrying the crate_name parameter — never both and never neither. -/
theorem success_response_shape (crateName : String) (env : Env) (a : Artifact) :
    (compile_handler crateName env).artifact = some a →
    ((compile_handler crateName env).response.status = 200 ∧
     getHeader (compile_handler crateName env).response "Content-Type" =
       some "application/octet-stream" ∧
     (compile_handler crateName env).response.body = a.bytes ∧
     ((getHeader (compile_handler crateName env).response "X-Rlib-File" = some a.fileName ∧
       getHeader (compile_handler crateName env).response "X-Binary-File" = none) ∨
      (getHeader (compile_handler crateName env).response "X-Binary-File" = some crateName ∧
       getHeader (compile_handler crateName env).response "X-Rlib-File" = none))) := by
  unfold compile_handler
  repeat' split
  all_goals intro h
  all_goals first
    | (exfalso; simp [noOutputResult] at h; done)
    | (dsimp only at h; simp only [Option.some.injEq] at h; subst h;
       exact ⟨rfl, rfl, rfl, Or.inl ⟨rfl, rfl⟩⟩)
    | (dsimp only at h; simp only [Option.some.injEq] at h; subst h;
       exact ⟨rfl, rfl, rfl, Or.inr ⟨rfl, rfl⟩⟩)

/-- C1 witness at a concrete successful library build. -/
theorem success_response_shape_witness :
    (compile_handler "foo" envLib).artifact =
      some { kind := ArtifactKind.LibraryArchive, fileName := "libfoo-1a2b.rlib",
             bytes := [7, 8] } ∧
    ((compile_handler "foo" envLib).response.status = 200 ∧
     getHeader (compile_handler "foo" envLib).response "Content-Type" =
       some "application/octet-stream" ∧
     (compile_handler "foo" envLib).response.body = [7, 8] ∧
     ((getHeader (compile_handler "foo" envLib).response "X-Rlib-File" =
         some "libfoo-1a2b.rlib" ∧
       getHeader (compile_handler "foo" envLib).response "X-Binary-File" = none) ∨
      (getHeader (compile_handler "foo" envLib).response "X-Binary-File" = some "foo" ∧
       getHeader (compile_handler "foo" envLib).response "X-Rlib-File" = none))) := by
  exact ⟨rfl, success_response_shape "foo" envLib _ rfl⟩

/-- Helper: on a run that reaches a successful cargo invocation, a
non-empty rlib-search result determines the artifact: the library-archive
return site fires with exactly that file name and those bytes. -/
theorem rlib_some_artifact (crateName : String) (env : Env) (bytes : List Nat)
    (o : CmdOutput) (fname : String) (bin : List Nat)
    (hcb : env.collectBody = some bytes) (ht : env.tempdirOk = true)
    (hu : env.unpackOk bytes = true) (ho : env.cargoOutput = some o)
    (hs : o.success = true) (hr : rlibSearch crateName env = some (fname, bin)) :
    (compile_handler crateName env).artifact =
      some { kind := ArtifactKind.LibraryArchive, fileName := fname, bytes := bin } := by
  unfold compile_handler
  repeat' split
  all_goals simp_all [noOutputResult]

/-- C2: the artifact search is two-phase with fixed priority.  Whenever the
rlib search over the deps listing yields a match, the handler returns the
library artifact (so no executable result can be returned on that run);
an executable artifact can only be returned when the rlib search yields
nothing. -/
theorem rlib_priority (crateName : String) (env : Env) (bytes : List Nat) (o : CmdOutput) :
    env.collectBody = some bytes → env.tempdirOk = true → env.unpackOk bytes = true →
    env.cargoOutput = some o → o.success = true →
    ((∀ fname bin, rlibSearch crateName env = some (fname, bin) →
        (compile_handler crateName env).artifact =
          some { kind := ArtifactKind.LibraryArchive, fileName := fname, bytes := bin }) ∧
     (∀ a, (compile_handler crateName env).artifact = some a →
        a.kind = ArtifactKind.Executable → rlibSearch crateName env = none)) := by
  intro hcb ht hu ho hs
  refine ⟨fun fname bin hr =>
    rlib_some_artifact crateName env bytes o fname bin hcb ht hu ho hs hr, ?_⟩
  intro a ha hk
  rcases hr : rlibSearch crateName env with _ | ⟨f, b⟩
  · rfl
  · have h2 := rlib_some_artifact crateName env bytes o f b hcb ht hu ho hs hr
    rw [ha] at h2
    simp only [Option.some.injEq] at h2
    subst h2
    simp at hk

/-- C2 witness: a run where both a matching readable rlib and a readable
executable exist returns the library artifact. -/
theorem rlib_priority_witness :
    envLib.collectBody = some [1] ∧ envLib.tempdirOk = true ∧
    envLib.unpackOk [1] = true ∧
    envLib.cargoOutput = some { success := true, stderr := [] } ∧
    envLib.exeExists = true ∧ envLib.readExe = some [9] ∧
    rlibSearch "foo" envLib = some ("libfoo-1a2b.rlib", [7, 8]) ∧
    (compile_handler "foo" envLib).artifact =
      some { kind := ArtifactKind.LibraryArchive, fileName := "libfoo-1a2b.rlib",
             bytes := [7, 8] } := by
  refine ⟨rfl, rfl, rfl, rfl, rfl, rfl, by decide, ?_⟩
  exact (rlib_priority "foo" envLib [1] _ rfl rfl rfl rfl rfl).1
    "libfoo-1a2b.rlib" [7, 8] (by decide)

/-- C3: when the cargo subprocess starts and exits with a non-zero status,
the handler responds 500 and the body is exactly the UTF-8 bytes of the
lossily decoded captured stderr — the toolchain's own text, nothing
substituted. -/
theorem build_failure_response (crateName : String) (env : Env) (bytes : List Nat)
    (o : CmdOutput) :
    env.collectBody = some bytes → env.tempdirOk = true → env.unpackOk bytes = true →
    env.cargoOutput = some o → o.success = false →
    ((compile_handler crateName env).response = error_response 500 (utf8Lossy o.stderr) ∧
     (compile_handler crateName env).response.status = 500 ∧
     (compile_handler crateName env).response.body = strBytes (utf8Lossy o.stderr)) := by
  intro hcb ht hu ho hs
  unfold compile_handler
  repeat' split
  all_goals simp_all [noOutputResult, error_response]

/-- C3 witness at a concrete failed build with stderr bytes "err". -/
theorem build_failure_response_witness :
    envFail.collectBody = some [1] ∧ envFail.tempdirOk = true ∧
    envFail.unpackOk [1] = true ∧
    envFail.cargoOutput = some { success := false, stderr := [101, 114, 114] } ∧
    ((compile_handler "foo" envFail).response =
       error_response 500 (utf8Lossy [101, 114, 114]) ∧
     (compile_handler "foo" envFail).response.status = 500 ∧
     (compile_handler "foo" envFail).response.body =
       strBytes (utf8Lossy [101, 114, 114])) := by
  exact ⟨rfl, rfl, rfl, rfl,
    build_failure_response "foo" envFail [1] _ rfl rfl rfl rfl rfl⟩

/-- C4: when cargo reports success but the rlib search yields nothing and
no executable named after the target exists, the handler responds with
the server-side error 500 whose body is "No output file found". -/
theorem artifact_not_found_response (crateName : String) (env : Env) (bytes : List Nat)
    (o : CmdOutput) :
    env.collectBody = some bytes → env.tempdirOk = true → env.unpackOk bytes = true →
    env.cargoOutput = some o → o.success = true →
    rlibSearch crateName env = none → env.exeExists = false →
    ((compile_handler crateName env).response =
       error_response 500 "No output file found" ∧
     (compile_handler crateName env).response.status = 500) := by
  intro hcb ht hu ho hs hr he
  unfold compile_handler
  repeat' split
  all_goals simp_all [noOutputResult, error_response]

/-- C4 witness at a concrete successful build with no discoverable output. -/
theorem artifact_not_found_response_witness :
    envNone.collectBody = some [1] ∧ envNone.tempdirOk = true ∧
    envNone.unpackOk [1] = true ∧
    envNone.cargoOutput = some { success := true, stderr := [] } ∧
    rlibSearch "foo" envNone = none ∧ envNone.exeExists = false ∧
    ((compile_handler "foo" envNone).response =
       error_response 500 "No output file found" ∧
     (compile_handler "foo" envNone).response.status = 500) := by
  refine ⟨rfl, rfl, rfl, rfl, by decide, rfl, ?_⟩
  exact artifact_not_found_response "foo" envNone [1] _ rfl rfl rfl rfl rfl (by decide) rfl

/-- C5: when the body bytes fail to unpack as an archive, the pipeline
stops before the toolchain is invoked and responds 400 with the
non-empty diagnostic body "Unpack failed". -/
theorem unpack_failure_response (crateName : String) (env : Env) (bytes : List Nat) :
    env.collectBody = some bytes → env.tempdirOk = true → env.unpackOk bytes = false →
    ((compile_handler crateName env).response = error_response 400 "Unpack failed" ∧
     (compile_handler crateName env).response.status = 400 ∧
     (compile_handler crateName env).response.body ≠ [] ∧
     (compile_handler crateName env).cargoInvoked = false) := by
  intro hcb ht hu
  unfold compile_handler
  repeat' split
  all_goals simp_all [noOutputResult, error_response, strBytes, encodeChar]

/-- C5 witness at a concrete request whose archive fails to extract. -/
theorem unpack_failure_response_witness :
    envBad.collectBody = some [1] ∧ envBad.tempdirOk = true ∧
    envBad.unpackOk [1] = false ∧
    ((compile_handler "foo" envBad).response = error_response 400 "Unpack failed" ∧
     (compile_handler "foo" envBad).response.status = 400 ∧
     (compile_handler "foo" envBad).response.body ≠ [] ∧
     (compile_handler "foo" envBad).cargoInvoked = false) := by
  exact ⟨rfl, rfl, rfl, unpack_failure_response "foo" envBad [1] rfl rfl rfl⟩

/-- C6: launch failure (the subprocess cannot be started, `Command::output`
returns Err) is a branch distinct from a run that exits non-zero: the
launch branch answers 500 with the fixed body "Cargo execution failed"
while the non-zero-exit branch answers 500 with the decoded stderr, and
the two conditions are mutually exclusive on any request. -/
theorem launch_failure_distinct (crateName : String) (env : Env) (bytes : List Nat) :
    env.collectBody = some bytes → env.tempdirOk = true → env.unpackOk bytes = true →
    ((env.cargoOutput = none →
        (compile_handler crateName env).response =
          error_response 500 "Cargo execution failed") ∧
     (∀ o, env.cargoOutput = some o → o.success = false →
        (compile_handler crateName env).response =
          error_response 500 (utf8Lossy o.stderr)) ∧
     ¬(env.cargoOutput = none ∧ ∃ o, env.cargoOutput = some o)) := by
  intro hcb ht hu
  refine ⟨?_, ?_, ?_⟩
  · intro ho
    unfold compile_handler
    repeat' split
    all_goals simp_all [noOutputResult, error_response]
  · intro o ho hs
    exact (build_failure_response crateName env bytes o hcb ht hu ho hs).1
  · rintro ⟨h1, o, h2⟩
    rw [h1] at h2
    exact Option.noConfusion h2

/-- C6 witness at a concrete request whose cargo subprocess fails to start. -/
theorem launch_failure_distinct_witness :
    envLaunch.collectBody = some [1] ∧ envLaunch.tempdirOk = true ∧
    envLaunch.unpackOk [1] = true ∧ envLaunch.cargoOutput = none ∧
    (compile_handler "foo" envLaunch).response =
      error_response 500 "Cargo execution failed" := by
  exact ⟨rfl, rfl, rfl, rfl,
    (launch_failure_distinct "foo" envLaunch [1] rfl rfl rfl).1 rfl⟩

/-- Helper: in the rlib loop, a matching entry whose read fails is simply
skipped — the loop result is the same as if the entry were not listed
(the `if let Ok` in src/main.rs lines 85-92 has no else branch). -/
theorem findRlib_skip (crateName name : String) (readF : String → Option (List Nat))
    (rest : List String)
    (hm : (pathExtension name == some "rlib" &&
            strContains name ("lib" ++ crateName)) = true)
    (hr : readF name = none) :
    findRlib crateName readF (name :: rest) = findRlib crateName readF rest := by
  simp [findRlib, hm, hr]

/-- C7 counterexample: a run where an artifact file matching the search is
found (its name has extension rlib and contains lib<crate>) but reading
it fails produces exactly the same result — the 500 "No output file
found" response — as the run where no artifact exists at all, so the
code has no distinct read-error outcome. -/
theorem read_error_collapses_to_not_found :
    (pathExtension "libfoo-1.rlib" == some "rlib" &&
      strContains "libfoo-1.rlib" ("lib" ++ "foo")) = true ∧
    envC7read.depsEntries = some ["libfoo-1.rlib"] ∧
    envC7read.readDeps "libfoo-1.rlib" = none ∧
    compile_handler "foo" envC7read = compile_handler "foo" envC7notfound ∧
    (compile_handler "foo" envC7read).response =
      error_response 500 "No output file found" := by
  exact ⟨by decide, rfl, rfl, rfl, rfl⟩

/-- C7 amended: a found-but-unreadable artifact is not a distinct outcome;
the handler behaves exactly as if the unreadable matching entry were
absent from the listing, so when nothing else is discoverable the run
ends in the same 500 "No output file found" response as
artifact-not-found. -/
theorem unreadable_match_skipped (crateName : String) (env : Env) (name : String)
    (rest : List String) :
    env.depsEntries = some (name :: rest) →
    (pathExtension name == some "rlib" &&
      strContains name ("lib" ++ crateName)) = true →
    env.readDeps name = none →
    compile_handler crateName env =
      compile_handler crateName { env with depsEntries := some rest } := by
  intro hd hm hr
  have hrs : rlibSearch crateName env =
      rlibSearch crateName { env with depsEntries := some rest } := by
    unfold rlibSearch
    rw [hd]
    exact findRlib_skip crateName name env.readDeps rest hm hr
  unfold compile_handler
  rw [hrs]

/-- C7 amended-claim witness at the concrete unreadable-match run. -/
theorem unreadable_match_skipped_witness :
    envC7read.depsEntries = some ["libfoo-1.rlib"] ∧
    (pathExtension "libfoo-1.rlib" == some "rlib" &&
      strContains "libfoo-1.rlib" ("lib" ++ "foo")) = true ∧
    envC7read.readDeps "libfoo-1.rlib" = none ∧
    compile_handler "foo" envC7read =
      compile_handler "foo" { envC7read with depsEntries := some ([] : List String) } := by
  exact ⟨rfl, by decide, rfl,
    unreadable_match_skipped "foo" envC7read "libfoo-1.rlib" [] rfl (by decide) rfl⟩

end DistbuildWorker
